import Mathlib

set_option maxRecDepth 10000

/-!
Verification of the bot_saham webhook bot (`bot_saham.py`).

This file gives a shallow embedding of the request-handling pipeline of the
bot: command parsing, rate limiting, response caching, quote retrieval with
fallback error messages, pivot-point computation, and message formatting.
Python floats are modelled as exact rationals (`ℚ`); the non-finite float
values that `safe_float` can let through are modelled explicitly by `PyFloat`.
Mutable module-level dictionaries (`cache`, `rate_limit`) are modelled by
explicit state passing: each stateful operation takes the table as an argument
and returns the updated table.  Network calls (`tv.get_hist`, the WAHA send)
are modelled as oracle parameters: the fetch functions are passed in as
arguments, and "sending" a message is modelled by returning the list of
(chat id, final text) pairs the handler would post.
-/

/-- Character for a single decimal digit `d < 10` (models the digits produced
by Python string formatting). -/
def digitChar (d : Nat) : Char := Char.ofNat (48 + d)

/-- Decimal digits of `n`, least-significant first, with explicit fuel so the
definition reduces in the kernel.  `natDigitsRev` supplies enough fuel. -/
def natDigitsRevAux : Nat → Nat → List Char
  | 0, _ => []
  | fuel + 1, n =>
    if n < 10 then [digitChar n]
    else digitChar (n % 10) :: natDigitsRevAux fuel (n / 10)

/-- Decimal digits of `n`, least-significant first. -/
def natDigitsRev (n : Nat) : List Char := natDigitsRevAux (n + 1) n

/-- Decimal digits of `n`, most-significant first (the plain decimal
rendering of a natural number). -/
def natDigits (n : Nat) : List Char := (natDigitsRev n).reverse

/-- Insert a comma before the digit at every position that is a positive
multiple of 3, walking a least-significant-first digit list; models the
thousands grouping of Python's `format(x, ",")`.  The output is also
least-significant first. -/
def commasRev : List Char → Nat → List Char
  | [], _ => []
  | c :: rest, k =>
    (if 0 < k ∧ k % 3 = 0 then [','] else []) ++ c :: commasRev rest (k + 1)

/-- Decimal rendering of `n` with thousands separators, most-significant
first: models `f-string` formatting with the `,` option. -/
def withCommas (n : Nat) : List Char := (commasRev (natDigits n).reverse 0).reverse

/-- Two-digit zero-padded rendering of `m < 100`: the fractional part of a
`.2f` format. -/
def twoDigits (m : Nat) : List Char := [digitChar (m / 10 % 10), digitChar (m % 10)]

/-- Floor of a non-negative rational as a natural number. -/
def ratFloorNat (a : ℚ) : Nat := a.num.toNat / a.den

/-- Number of cents in `|q|` after rounding half-up: the magnitude that a
Python `.2f` format of `q` displays (ties in binary floating point round
half-even on the stored value; the embedding idealises this to exact
half-up rounding on the rational value, which agrees on all inputs used
here). -/
def centsOf (q : ℚ) : Nat := ratFloorNat (|q| * 100 + 1 / 2)

/-- Python `int(q)` for a finite value: truncation toward zero. -/
def py_int (q : ℚ) : ℤ := q.num.tdiv (q.den : ℤ)

/-- Model of `format_number` (bot_saham.py lines 108-113) on finite values:
`None` renders as `"-"`, an integral value as `f"{int(value):,}"`, any other
value as `f"{value:,.2f}"`. -/
def format_number : Option ℚ → String
  | none => "-"
  | some q =>
    if q.den = 1 then
      String.mk ((if q.num < 0 then ['-'] else []) ++ withCommas q.num.natAbs)
    else
      String.mk ((if q < 0 then ['-'] else []) ++
        withCommas (centsOf q / 100) ++ '.' :: twoDigits (centsOf q % 100))

/-- Python `f"{q:.2f}"` on a finite value (no thousands separators). -/
def fmt2 (q : ℚ) : String :=
  String.mk ((if q < 0 then ['-'] else []) ++
    natDigits (centsOf q / 100) ++ '.' :: twoDigits (centsOf q % 100))

/-- Model of `format_change` (lines 134-138): placeholder when either part is
absent, otherwise `f"{sign}{format_number(change)} ({sign}{pct:.2f}%)"` with
`sign = "+"` exactly when `change >= 0`. -/
def format_change (change pct : Option ℚ) : String :=
  match change, pct with
  | some c, some p =>
    let sign := if (0 : ℚ) ≤ c then "+" else ""
    sign ++ format_number (some c) ++ " (" ++ sign ++ fmt2 p ++ "%)"
  | _, _ => "-"

/-- A Python float value as seen by `safe_float`/`format_number`: a finite
value (an exact rational), one of the two infinities, or NaN. -/
inductive PyFloat where
  | finite (q : ℚ)
  | posInf
  | negInf
  | nan
deriving DecidableEq

/-- Whether a `PyFloat` is NaN (`math.isnan`). -/
def pyIsNan : PyFloat → Bool
  | .nan => true
  | _ => false

/-- Model of `safe_float` (lines 98-105).  The argument is the result of the
`float(value)` conversion: `none` stands for inputs on which `float` raises
`TypeError`/`ValueError` (e.g. `None` or a non-numeric string) — the source
catches those and returns `None`; `some x` stands for a successful conversion.
NaN is then mapped to `None`; every other value, infinities included, is
passed through. -/
def safe_float : Option PyFloat → Option PyFloat
  | none => none
  | some x => if pyIsNan x then none else some x

/-- Full model of `format_number` including its behaviour on non-finite
inputs: `value == int(value)` evaluates `int(value)`, which raises
`OverflowError` on the infinities and `ValueError` on NaN; an exception is
modelled as `.error` carrying the exception name. -/
def format_number_full : Option PyFloat → Except String String
  | none => .ok "-"
  | some (.finite q) => .ok (format_number (some q))
  | some .posInf => .error "OverflowError"
  | some .negInf => .error "OverflowError"
  | some .nan => .error "ValueError"

/-- Model of `rate_limit_ok` (lines 185-192).  The mutable module-level dict
`rate_limit` is the explicit argument `rate`; `RATE_LIMIT_SECONDS` is
`window`; `time.time()` is the explicit argument `now`.  Note the source
guard `if last and (now - last) < RATE_LIMIT_SECONDS`: a recorded timestamp
of exactly `0.0` is falsy in Python and is treated as absent.  `int(...)`
truncates toward zero (`py_int`).  Returns `((ok, remaining), new table)`. -/
def rate_limit_ok (rate : String → Option ℚ) (window : ℚ) (chatId : String)
    (now : ℚ) : (Bool × ℤ) × (String → Option ℚ) :=
  match rate chatId with
  | some last =>
    if last ≠ 0 ∧ now - last < window then
      ((false, max 1 (py_int (window - (now - last)))), rate)
    else
      ((true, 0), fun c => if c = chatId then some now else rate c)
  | none => ((true, 0), fun c => if c = chatId then some now else rate c)

/-- Model of `cache_get` (lines 141-153) for a cache holding payloads of type
`α`: the mutable dict `cache` is the explicit argument `c` mapping keys to
`(cached_at, data)`; `CACHE_TTL_SECONDS` is `ttl` and `time.time()` is `now`.
An entry older than the TTL (strictly) is popped and the call misses.
Returns `(result, new cache)`. -/
def cache_get {α : Type} (c : String → Option (ℚ × α)) (ttl : ℚ) (key : String)
    (now : ℚ) : Option α × (String → Option (ℚ × α)) :=
  match c key with
  | none => (none, c)
  | some (cachedAt, data) =>
    if now - cachedAt > ttl then (none, fun k => if k = key then none else c k)
    else (some data, c)

/-- Model of `cache_set` (lines 152-153). -/
def cache_set {α : Type} (c : String → Option (ℚ × α)) (key : String)
    (value : α) (now : ℚ) : String → Option (ℚ × α) :=
  fun k => if k = key then some (now, value) else c k

/-- Word character for the purposes of the `\b` in `^!ihsg\b` (ASCII view of
Python's `\w`). -/
def isWordChar (c : Char) : Bool := c.isAlphanum || c = '_'

/-- Membership in the character class of the symbol regexp.  The source
writes the raw string `r"^\$([a-z0-9\\.]+)"`, so the class is
`[a-z0-9\\.]`: lowercase letters, digits, the backslash character (from the
doubled backslash, which in a raw string is an escaped literal backslash)
and the dot. -/
def symbolClassChar (c : Char) : Bool :=
  ('a' ≤ c && c ≤ 'z') || c.isDigit || c = '\\' || c = '.'

/-- Match of `^!ihsg\b` against the lowered text: the prefix `!ihsg` followed
by end-of-string or a non-word character. -/
def ihsgMatch (l : List Char) : Bool :=
  match l with
  | '!' :: 'i' :: 'h' :: 's' :: 'g' :: rest =>
    match rest with
    | [] => true
    | c :: _ => !isWordChar c
  | _ => false

/-- Model of `parse_command` (lines 156-169): strip and lower the text; a
`!help` prefix gives the help command, a `^!ihsg\b` match the index command,
a `^\$([a-z0-9\\.]+)` match the quote command with the captured token
upper-cased and a trailing `.JK` stripped; anything else is unrecognized. -/
def parse_command (text : String) : Option String × Option String :=
  let lower := text.trim.toLower
  if lower.startsWith "!help" then (some "help", none)
  else if ihsgMatch lower.data then (some "ihsg", none)
  else
    match lower.data with
    | '$' :: rest =>
      let tok := rest.takeWhile symbolClassChar
      if tok.isEmpty then (none, none)
      else
        let symbol := String.mk (tok.map Char.toUpper)
        let symbol := if symbol.endsWith ".JK" then symbol.dropRight 3 else symbol
        (some "quote", some symbol)
    | _ => (none, none)


/-- Python `str.rstrip()`: drop trailing whitespace. -/
def rstrip (s : String) : String :=
  String.mk (s.data.reverse.dropWhile Char.isWhitespace).reverse

/-- The fixed attribution footer appended to every outbound message. -/
def footer : String := "© Haris Stockbit"

/-- Model of the body fix-up in `send_text` (lines 195-198): a non-empty text
that does not already end (after `rstrip`) with the footer gets the footer
appended after a blank line.  The HTTP post itself is external; the handler
model records the resulting (chat id, text) pair instead. -/
def send_text_body (text : String) : String :=
  if text ≠ "" ∧ ¬ (rstrip text).endsWith footer then
    rstrip text ++ "\n\n" ++ footer
  else text

/-- Model of `help_text` (lines 337-349). -/
def help_text : String :=
  String.intercalate "\n"
    [ "Panduan cepat:",
      "1) Kirim kode saham dengan format: $KODE (contoh: $BBCA)",
      "2) Lihat IHSG: !ihsg",
      "3) Lihat bantuan: !help",
      "",
      "Catatan:",
      "- Data TradingView timeframe 1D",
      "- Output S/R berbasis pivot harian" ]

/-- The quote payload built by `fetch_quote` (lines 233-241): each numeric
field holds the result of `safe_float` on the corresponding bar column (a
finite value or absent), `timestamp` the `str(...)` of the bar label.  The
field `openPrice` models the `"open"` entry (`open` is a reserved word
here). -/
structure QuoteData where
  openPrice : Option ℚ
  high : Option ℚ
  low : Option ℚ
  close : Option ℚ
  volume : Option ℚ
  timestamp : Option String
  prev_close : Option ℚ
deriving DecidableEq

/-- Pivot point of a bar (line 272): `(high + low + close) / 3`. -/
def pivot_point (h l c : ℚ) : ℚ := (h + l + c) / 3

/-- The support/resistance payload built by `fetch_sr_levels`
(lines 280-288). -/
structure SrLevels where
  s1 : ℚ
  s2 : ℚ
  s3 : ℚ
  r1 : ℚ
  r2 : ℚ
  r3 : ℚ
  time : Option String
deriving DecidableEq

/-- The pivot levels computed on lines 272-278 from a valid bar. -/
def pivot_levels (h l c : ℚ) (t : Option String) : SrLevels :=
  let pivot := pivot_point h l c
  { s1 := 2 * pivot - h
    s2 := pivot - (h - l)
    s3 := l - 2 * (h - pivot)
    r1 := 2 * pivot - l
    r2 := pivot + (h - l)
    r3 := h + 2 * (pivot - l)
    time := t }

/-- One row of the `get_hist` response as consumed by `fetch_sr_levels`:
the numeric fields hold `safe_float(bar.get(...))` (finite or absent) and
`time` holds `format_time_value` of the row label. -/
structure SrBar where
  high : Option ℚ
  low : Option ℚ
  close : Option ℚ
  time : Option String
deriving DecidableEq

/-- Index of the bar selected on line 262: `-2` when more than one bar is
present, else `-1`, converted to a non-negative index. -/
def sr_bar_index (n : Nat) : Nat := if 1 < n then n - 2 else n - 1

/-- The bar `bars.iloc[idx]` selected by `fetch_sr_levels`; `none` exactly
when the response is empty. -/
def selected_sr_bar (bars : List SrBar) : Option SrBar :=
  bars.get? (sr_bar_index bars.length)

/-- The validity test of line 269: a bar is invalid when any of
high/low/close is absent or when `high == low`. -/
def sr_bar_invalid (b : SrBar) : Bool :=
  match b.high, b.low, b.close with
  | some h, some l, some _ => h = l
  | _, _, _ => true

/-- Model of lines 259-290 of `fetch_sr_levels`: the part that runs on a
cache miss with a usable client once `get_hist` has returned `bars`.
An empty response gives the no-data error; a selected bar with a missing
field or `high == low` gives the invalid-data error; otherwise the pivot
levels are computed. -/
def fetch_sr_core (bars : List SrBar) : Option SrLevels × Option String :=
  match selected_sr_bar bars with
  | none => (none, some "Data SR tidak tersedia.")
  | some bar =>
    match bar.high, bar.low, bar.close with
    | some h, some l, some c =>
      if h = l then (none, some "Data SR tidak valid.")
      else (some (pivot_levels h l c bar.time), none)
    | _, _, _ => (none, some "Data SR tidak valid.")

/-- Model of `fetch_sr_levels` (lines 246-290).  The cache lookup, client
construction and `get_hist` call are external effects; their outcomes are
passed in: `cached` is the `cache_get` result, `clientOk` whether
`get_tv_client()` returned a client, `fetched` the `get_hist` outcome
(`none` models a raised exception). -/
def fetch_sr_levels (cached : Option SrLevels) (clientOk : Bool)
    (fetched : Option (List SrBar)) : Option SrLevels × Option String :=
  match cached with
  | some c => (some c, none)
  | none =>
    if clientOk = false then (none, some "Gagal login ke TradingView.")
    else
      match fetched with
      | none => (none, some "Gagal mengambil data SR.")
      | some bars => fetch_sr_core bars

/-- The list `lines` of `format_quote_text` (lines 300-311) before the
optional timestamp and S/R extensions: header, close, change, O/H/L and
volume lines.  `change` is `close - open` when both are present; `pct` is
`change / open * 100` unless the open is absent or zero. -/
def quote_lines (symbol exchange : String) (d : QuoteData)
    (display : Option String) : List String :=
  let change : Option ℚ :=
    match d.close, d.openPrice with
    | some c, some o => some (c - o)
    | _, _ => none
  let pct : Option ℚ :=
    match d.close, d.openPrice with
    | some c, some o => if o = 0 then none else some ((c - o) / o * 100)
    | _, _ => none
  let header :=
    match display with
    | some dsp => if dsp = "" then symbol ++ " (" ++ exchange ++ ")" else dsp
    | none => symbol ++ " (" ++ exchange ++ ")"
  [ header,
    "Close: " ++ format_number d.close,
    "Change: " ++ format_change change pct,
    "O/H/L: " ++ format_number d.openPrice ++ " / " ++ format_number d.high
      ++ " / " ++ format_number d.low,
    "Volume: " ++ format_number d.volume ]

/-- The S/R block appended by lines 314-333 when pivot data is present. -/
def sr_block (symbol : String) (sr : SrLevels) : List String :=
  [ "",
    "📊 SUPPORT & RESISTANCE — " ++ symbol ++ " (1 Day)",
    "",
    "🔻 Support",
    "S1: " ++ format_number (some sr.s1),
    "S2: " ++ format_number (some sr.s2),
    "S3: " ++ format_number (some sr.s3),
    "",
    "🔺 Resistance",
    "R1: " ++ format_number (some sr.r1),
    "R2: " ++ format_number (some sr.r2),
    "R3: " ++ format_number (some sr.r3),
    "",
    "⏱ " ++ (match sr.time with
             | some t => if t = "" then "-" else t
             | none => "-"),
    "© Haris Stockbit" ]

/-- Model of `format_quote_text` (lines 293-334): the base lines, a `Time:`
line when the timestamp is a non-empty string, and the S/R block when pivot
data is supplied, joined with newlines. -/
def format_quote_text (symbol exchange : String) (d : QuoteData)
    (display : Option String) (sr : Option SrLevels) : String :=
  let base := quote_lines symbol exchange d display
  let withTime :=
    match d.timestamp with
    | some ts => if ts = "" then base else base ++ ["Time: " ++ ts]
    | none => base
  let allLines :=
    match sr with
    | some s => withTime ++ sr_block symbol s
    | none => withTime
  String.intercalate "\n" allLines

/-- Model of the `webhook` handler (lines 357-401) for one inbound event.
The inbound payload is already reduced to `(text, chatId, fromMe)` as
`extract_message` produces it; the two fetchers are passed as oracles
(`fq` models `fetch_quote`, `fsr` models `fetch_sr_levels`, each returning
the `(data, error)` pair for a symbol); `ihsgSymbol` is `IHSG_SYMBOL`,
`window` is `RATE_LIMIT_SECONDS` and `rate`/`now` are the rate-limit table
and clock.  The result is the JSON status string, the list of messages
posted via `send_text` (with the footer applied), and the rate table after
the call. -/
def webhook (fq : String → Option QuoteData × Option String)
    (fsr : String → Option SrLevels × Option String)
    (ihsgSymbol : String) (window : ℚ)
    (rate : String → Option ℚ) (now : ℚ)
    (text chatId : Option String) (fromMe : Bool) :
    String × List (String × String) × (String → Option ℚ) :=
  match text, chatId with
  | some t, some cid =>
    if t = "" ∨ cid = "" ∨ fromMe = true then ("ignored", [], rate)
    else
      match parse_command t with
      | (none, _) => ("ignored", [], rate)
      | (some cmd, symbol) =>
        let res := rate_limit_ok rate window cid now
        let rate2 := res.2
        if res.1.1 = false then
          ("rate_limited",
            [(cid, send_text_body ("Mohon tunggu " ++ toString res.1.2
              ++ " detik sebelum request lagi."))], rate2)
        else if cmd = "help" then
          ("ok", [(cid, send_text_body help_text)], rate2)
        else if cmd = "ihsg" then
          match fq ihsgSymbol with
          | (_, some e) => ("error", [(cid, send_text_body e)], rate2)
          | (none, none) =>
            ("error", [(cid, send_text_body "Data IHSG tidak tersedia.")], rate2)
          | (some d, none) =>
            ("ok", [(cid, send_text_body
              (format_quote_text ihsgSymbol "IDX" d (some "IHSG (IDX)") none))],
              rate2)
        else if cmd = "quote" then
          match symbol with
          | some s =>
            if s = "" then ("ignored", [], rate2)
            else
              match fq s with
              | (_, some e) => ("error", [(cid, send_text_body e)], rate2)
              | (none, none) =>
                ("error", [(cid, send_text_body "Data tidak tersedia.")], rate2)
              | (some d, none) =>
                let srRes := fsr s
                let srData := if srRes.2.isSome then none else srRes.1
                ("ok", [(cid, send_text_body
                  (format_quote_text s "IDX" d none srData))], rate2)
          | none => ("ignored", [], rate2)
        else ("ignored", [], rate2)
  | _, _ => ("ignored", [], rate)

/-- Whether `pat` occurs at the start of `l`. -/
def startsWithList : List Char → List Char → Bool
  | [], _ => true
  | _ :: _, [] => false
  | p :: ps, c :: cs => p = c && startsWithList ps cs

/-- Whether `pat` occurs anywhere inside `l`. -/
def hasSub (pat : List Char) : List Char → Bool
  | [] => startsWithList pat []
  | c :: cs => startsWithList pat (c :: cs) || hasSub pat cs

/-- Whether `pat` is a substring of `s`. -/
def containsSub (s pat : String) : Bool := hasSub pat.data s.data

/-! ### Helper lemmas about the digit and thousands-separator rendering -/

theorem digitChar_isDigit {d : Nat} (h : d < 10) : (digitChar d).isDigit = true := by
  interval_cases d <;> decide

theorem isDigit_ne_comma {ch : Char} (h : ch.isDigit = true) : ch ≠ ',' := by
  intro heq; subst heq; exact absurd h (by decide)

theorem isDigit_ne_dot {ch : Char} (h : ch.isDigit = true) : ch ≠ '.' := by
  intro heq; subst heq; exact absurd h (by decide)

theorem mem_natDigitsRevAux {fuel n : Nat} {ch : Char}
    (h : ch ∈ natDigitsRevAux fuel n) : ch.isDigit = true := by
  induction fuel generalizing n with
  | zero => simp [natDigitsRevAux] at h
  | succ fuel ih =>
    rw [natDigitsRevAux] at h
    split at h
    · rw [List.mem_singleton] at h
      subst h
      exact digitChar_isDigit (by omega)
    · rcases List.mem_cons.mp h with h1 | h2
      · subst h1
        exact digitChar_isDigit (Nat.mod_lt _ (by norm_num))
      · exact ih h2

theorem mem_natDigits {n : Nat} {ch : Char} (h : ch ∈ natDigits n) :
    ch.isDigit = true := by
  rw [natDigits, List.mem_reverse] at h
  exact mem_natDigitsRevAux h

theorem mem_commasRev {xs : List Char} {k : Nat} {ch : Char}
    (h : ch ∈ commasRev xs k) : ch ∈ xs ∨ ch = ',' := by
  induction xs generalizing k with
  | nil => simp [commasRev] at h
  | cons c rest ih =>
    rw [commasRev] at h
    rcases List.mem_append.mp h with h1 | h2
    · right
      split at h1
      · exact List.mem_singleton.mp h1
      · exact absurd h1 (List.not_mem_nil ch)
    · rcases List.mem_cons.mp h2 with h3 | h4
      · exact Or.inl (h3 ▸ List.mem_cons_self c rest)
      · rcases ih h4 with h5 | h6
        · exact Or.inl (List.mem_cons_of_mem c h5)
        · exact Or.inr h6

theorem mem_withCommas {n : Nat} {ch : Char} (h : ch ∈ withCommas n) :
    ch.isDigit = true ∨ ch = ',' := by
  rw [withCommas, List.mem_reverse] at h
  rcases mem_commasRev h with h1 | h2
  · exact Or.inl (mem_natDigits (List.mem_reverse.mp h1))
  · exact Or.inr h2

theorem commasRev_filter (xs : List Char) (hx : ∀ ch ∈ xs, ch ≠ ',') (k : Nat) :
    (commasRev xs k).filter (fun ch => ch != ',') = xs := by
  induction xs generalizing k with
  | nil => rfl
  | cons c rest ih =>
    have hc : (c != ',') = true := bne_iff_ne.mpr (hx c (List.mem_cons_self c rest))
    have htail : ∀ ch ∈ rest, ch ≠ ',' := fun ch hm => hx ch (List.mem_cons_of_mem c hm)
    rw [commasRev, List.filter_append]
    split
    · simp [List.filter_cons, hc, ih htail]
    · simp [List.filter_cons, hc, ih htail]

theorem withCommas_filter (n : Nat) :
    (withCommas n).filter (fun ch => ch != ',') = natDigits n := by
  rw [withCommas, List.filter_reverse]
  rw [commasRev_filter _ (fun ch hm => isDigit_ne_comma (mem_natDigits (List.mem_reverse.mp hm))) 0]
  exact List.reverse_reverse _

/-! ### Claim C2: denied result and remaining seconds -/

/-- C2 counterexample: with a window of 5 seconds, a recorded timestamp 10
and a call at 10.5, the elapsed time is 0.5 < 5 so the call is denied, and
the code returns `int(5 - 0.5) = 4` — not the ceiling `⌈4.5⌉ = 5` (even
after the floor at 1) that the claim specifies. -/
theorem c2_counterexample :
    (rate_limit_ok (fun c => if c = "X" then some 10 else none) 5 "X"
      (21 / 2)).1 = (false, 4) ∧
    max 1 ⌈(5 : ℚ) - (21 / 2 - 10)⌉ = 5 ∧ (4 : ℤ) ≠ 5 := by
  refine ⟨by with_unfolding_all decide, ?_, by decide⟩
  rw [show ((5 : ℚ) - (21 / 2 - 10)) = 9 / 2 by norm_num]
  rw [show ⌈(9 / 2 : ℚ)⌉ = 5 from by rw [Int.ceil_eq_iff]; norm_num]
  decide

/-- C2 (amended): for a conversation with a recorded non-zero (positive)
last-accepted timestamp `last` and a call at `now` with
`now - last < window`, `rate_limit_ok` returns `Denied` with
`remaining = max 1 (int(window - (now - last)))`, where `int` truncates
(the code uses truncation, not the ceiling); the floor at 1 still
guarantees the caller is never told to wait 0 seconds. -/
theorem c2_amended (rate : String → Option ℚ) (window : ℚ) (cid : String)
    (now last : ℚ) (hrec : rate cid = some last) (hpos : 0 < last)
    (hwin : now - last < window) :
    (rate_limit_ok rate window cid now).1 =
      (false, max 1 (py_int (window - (now - last)))) ∧
    1 ≤ (rate_limit_ok rate window cid now).1.2 := by
  have hne : last ≠ 0 := ne_of_gt hpos
  constructor
  · simp [rate_limit_ok, hrec, hne, hwin]
  · simp [rate_limit_ok, hrec, hne, hwin]

/-- Witness for `c2_amended` at the concrete denied call of the
counterexample. -/
theorem c2_witness :
    (rate_limit_ok (fun c => if c = "X" then some 10 else none) 5 "X"
      (21 / 2)).1 = (false, max 1 (py_int (5 - (21 / 2 - 10)))) ∧
    1 ≤ (rate_limit_ok (fun c => if c = "X" then some 10 else none) 5 "X"
      (21 / 2)).1.2 :=
  c2_amended (fun c => if c = "X" then some 10 else none) 5 "X" (21 / 2) 10
    (by with_unfolding_all decide) (by norm_num) (by norm_num)

/-! ### Claim C3: rate-limiter round trip -/

/-- C3: once a check at a (positive) clock time `t0` is allowed — which
records `t0` for the conversation — every later check strictly before
`t0 + window` is denied and a check at or after `t0 + window` is allowed
again. -/
theorem c3_round_trip (rate : String → Option ℚ) (window : ℚ) (cid : String)
    (t0 t1 : ℚ) (hpos : 0 < t0)
    (hallow : (rate_limit_ok rate window cid t0).1.1 = true) :
    (rate_limit_ok rate window cid t0).2 cid = some t0 ∧
    (t1 < t0 + window →
      (rate_limit_ok ((rate_limit_ok rate window cid t0).2) window cid
        t1).1.1 = false) ∧
    (t0 + window ≤ t1 →
      (rate_limit_ok ((rate_limit_ok rate window cid t0).2) window cid
        t1).1.1 = true) := by
  have hrec : (rate_limit_ok rate window cid t0).2 cid = some t0 := by
    rcases h : rate cid with _ | last
    · simp [rate_limit_ok, h]
    · by_cases hg : last ≠ 0 ∧ t0 - last < window
      · simp [rate_limit_ok, h, hg] at hallow
      · simp [rate_limit_ok, h, hg]
  refine ⟨hrec, ?_, ?_⟩
  · intro hlt
    generalize hR : (rate_limit_ok rate window cid t0).2 = rate0 at hrec ⊢
    have h0 : ¬t0 = 0 := ne_of_gt hpos
    have hlt' : t1 - t0 < window := by linarith
    simp [rate_limit_ok, hrec, h0, hlt']
  · intro hge
    generalize hR : (rate_limit_ok rate window cid t0).2 = rate0 at hrec ⊢
    have hg : ¬(¬t0 = 0 ∧ t1 - t0 < window) := by
      rintro ⟨-, hlt⟩; linarith
    simp [rate_limit_ok, hrec, hg]

/-- Witness for `c3_round_trip`: a fresh conversation allowed at time 3 with
window 5 is denied at time 6 and allowed again at time 8. -/
theorem c3_witness :
    (rate_limit_ok ((rate_limit_ok (fun _ => none) 5 "A" 3).2) 5 "A"
      6).1.1 = false ∧
    (rate_limit_ok ((rate_limit_ok (fun _ => none) 5 "A" 3).2) 5 "A"
      8).1.1 = true :=
  ⟨(c3_round_trip (fun _ => none) 5 "A" 3 6 (by norm_num)
      (by with_unfolding_all decide)).2.1 (by norm_num),
   (c3_round_trip (fun _ => none) 5 "A" 3 8 (by norm_num)
      (by with_unfolding_all decide)).2.2 (by norm_num)⟩

/-! ### Claim C10: a denied check leaves the table unchanged -/

/-- C10: a denied `rate_limit_ok` call returns the table unchanged; an
allowed call updates exactly the calling conversation's entry to `now`; and
for a conversation whose (positive) recorded timestamp is `last`, checks
before `last + window` are denied and checks at or after it are allowed —
so repeated denials never extend the cooldown. -/
theorem c10_frame (rate : String → Option ℚ) (window : ℚ) (cid : String)
    (now : ℚ) :
    ((rate_limit_ok rate window cid now).1.1 = false →
      (rate_limit_ok rate window cid now).2 = rate) ∧
    ((rate_limit_ok rate window cid now).1.1 = true →
      (rate_limit_ok rate window cid now).2 cid = some now ∧
      ∀ c2, c2 ≠ cid → (rate_limit_ok rate window cid now).2 c2 = rate c2) ∧
    (∀ last, 0 < last → rate cid = some last →
      (now < last + window →
        (rate_limit_ok rate window cid now).1.1 = false) ∧
      (last + window ≤ now →
        (rate_limit_ok rate window cid now).1.1 = true)) := by
  refine ⟨?_, ?_, ?_⟩
  · intro hden
    rcases h : rate cid with _ | last
    · simp [rate_limit_ok, h] at hden
    · by_cases hg : last ≠ 0 ∧ now - last < window
      · simp [rate_limit_ok, h, hg]
      · simp [rate_limit_ok, h, hg] at hden
  · intro hok
    rcases h : rate cid with _ | last
    · constructor
      · simp [rate_limit_ok, h]
      · intro c2 hne; simp [rate_limit_ok, h, hne]
    · by_cases hg : last ≠ 0 ∧ now - last < window
      · simp [rate_limit_ok, h, hg] at hok
      · constructor
        · simp [rate_limit_ok, h, hg]
        · intro c2 hne; simp [rate_limit_ok, h, hg, hne]
  · intro last hpos hrec
    constructor
    · intro hlt
      have hg : last ≠ 0 ∧ now - last < window := ⟨ne_of_gt hpos, by linarith⟩
      simp [rate_limit_ok, hrec, hg]
    · intro hge
      have hg : ¬(last ≠ 0 ∧ now - last < window) := by
        rintro ⟨-, hlt⟩; linarith
      simp [rate_limit_ok, hrec, hg]

/-- Witness for `c10_frame`: a denied call at time 12 against a table that
recorded time 10 for the conversation leaves the table unchanged. -/
theorem c10_witness :
    (rate_limit_ok (fun c => if c = "B" then some 10 else none) 5 "B"
      12).2 = (fun c => if c = "B" then some 10 else none) :=
  (c10_frame (fun c => if c = "B" then some 10 else none) 5 "B" 12).1
    (by with_unfolding_all decide)

/-! ### Claim C7: cache TTL behaviour -/

/-- C7: a `cache_get` at `now` for an entry created at `created` misses and
evicts the entry when `now - created > ttl`; two `cache_get` calls with no
intervening `cache_set`, both within the TTL, hit and return the identical
payload (the first call leaves the cache unchanged). -/
theorem c7_cache (α : Type) (c : String → Option (ℚ × α)) (ttl : ℚ)
    (key : String) (now now2 created : ℚ) (data : α)
    (hentry : c key = some (created, data)) :
    (now - created > ttl →
      (cache_get c ttl key now).1 = none ∧
      (cache_get c ttl key now).2 key = none) ∧
    (now - created ≤ ttl → now2 - created ≤ ttl →
      (cache_get c ttl key now).1 = some data ∧
      (cache_get c ttl key now).2 = c ∧
      (cache_get ((cache_get c ttl key now).2) ttl key now2).1 = some data) := by
  constructor
  · intro hexp
    constructor
    · simp [cache_get, hentry, hexp]
    · simp [cache_get, hentry, hexp]
  · intro h1 h2
    have h1' : ¬(now - created > ttl) := not_lt.mpr h1
    have h2' : ¬(now2 - created > ttl) := not_lt.mpr h2
    refine ⟨?_, ?_, ?_⟩
    · simp [cache_get, hentry, h1']
    · simp [cache_get, hentry, h1']
    · simp [cache_get, hentry, h1', h2']

/-- Witness for `c7_cache`: with TTL 15 and an entry created at 0, two gets
at times 3 and 5 both return the cached payload. -/
theorem c7_witness :
    (cache_get (fun k => if k = "K" then some ((0 : ℚ), 7) else none) 15 "K"
      3).1 = some 7 := by
  exact ((c7_cache Nat (fun k => if k = "K" then some ((0 : ℚ), 7) else none)
    15 "K" 3 5 0 7 (by with_unfolding_all decide)).2 (by norm_num)
    (by norm_num)).1

/-! ### Claim C1: the Help command and the rate limiter -/

/-- C1 counterexample: an inbound `!help` from conversation "X" whose table
entry records time 10, arriving at time 12 with a 5-second window, is
answered with the rate-limit wait message and status `rate_limited` — the
dispatcher consults the rate limiter before dispatching on the command, so
Help is not exempt and the static help reply is not sent. -/
theorem c1_counterexample :
    (parse_command "!help").1 = some "help" ∧
    (webhook (fun _ => (none, none)) (fun _ => (none, none)) "COMPOSITE" 5
      (fun c => if c = "X" then some 10 else none) 12 (some "!help")
      (some "X") false).1 = "rate_limited" ∧
    (webhook (fun _ => (none, none)) (fun _ => (none, none)) "COMPOSITE" 5
      (fun c => if c = "X" then some 10 else none) 12 (some "!help")
      (some "X") false).2.1 =
      [("X", "Mohon tunggu 3 detik sebelum request lagi.\n\n© Haris Stockbit")] ∧
    (webhook (fun _ => (none, none)) (fun _ => (none, none)) "COMPOSITE" 5
      (fun c => if c = "X" then some 10 else none) 12 (some "!help")
      (some "X") false).2.1 ≠ [("X", send_text_body help_text)] := by
  with_unfolding_all decide

/-- C1 (amended): every recognized command, Help included, passes through
the rate-limit check before dispatch: an event whose text parses to the
Help command receives the "please wait N seconds" reply with status
`rate_limited` when the limiter denies it, and the static help reply with
status `ok` only when the limiter allows it. -/
theorem c1_amended (fq : String → Option QuoteData × Option String)
    (fsr : String → Option SrLevels × Option String)
    (ihsgSymbol : String) (window : ℚ) (rate : String → Option ℚ) (now : ℚ)
    (t cid : String) (ht : (parse_command t).1 = some "help")
    (htext : t ≠ "") (hcid : cid ≠ "") :
    ((rate_limit_ok rate window cid now).1.1 = false →
      (webhook fq fsr ihsgSymbol window rate now (some t) (some cid)
        false).1 = "rate_limited" ∧
      (webhook fq fsr ihsgSymbol window rate now (some t) (some cid)
        false).2.1 =
        [(cid, send_text_body ("Mohon tunggu "
          ++ toString (rate_limit_ok rate window cid now).1.2
          ++ " detik sebelum request lagi."))]) ∧
    ((rate_limit_ok rate window cid now).1.1 = true →
      (webhook fq fsr ihsgSymbol window rate now (some t) (some cid)
        false).1 = "ok" ∧
      (webhook fq fsr ihsgSymbol window rate now (some t) (some cid)
        false).2.1 = [(cid, send_text_body help_text)]) := by
  rcases hp : parse_command t with ⟨c1, s1⟩
  rw [hp] at ht
  simp only at ht
  subst ht
  constructor
  · intro hden
    constructor
    · simp [webhook, hp, htext, hcid, hden]
    · simp [webhook, hp, htext, hcid, hden]
  · intro hok
    constructor
    · simp [webhook, hp, htext, hcid, hok]
    · simp [webhook, hp, htext, hcid, hok]

/-- Witness for `c1_amended`: the concrete denied Help event of the
counterexample, and an allowed Help event at time 20, via the theorem. -/
theorem c1_witness :
    (webhook (fun _ => (none, none)) (fun _ => (none, none)) "COMPOSITE" 5
      (fun c => if c = "X" then some 10 else none) 12 (some "!help")
      (some "X") false).1 = "rate_limited" ∧
    (webhook (fun _ => (none, none)) (fun _ => (none, none)) "COMPOSITE" 5
      (fun c => if c = "X" then some 10 else none) 20 (some "!help")
      (some "X") false).2.1 = [("X", send_text_body help_text)] :=
  ⟨((c1_amended (fun _ => (none, none)) (fun _ => (none, none)) "COMPOSITE" 5
      (fun c => if c = "X" then some 10 else none) 12 "!help" "X"
      (by with_unfolding_all decide) (by decide) (by decide)).1
      (by with_unfolding_all decide)).1,
   ((c1_amended (fun _ => (none, none)) (fun _ => (none, none)) "COMPOSITE" 5
      (fun c => if c = "X" then some 10 else none) 20 "!help" "X"
      (by with_unfolding_all decide) (by decide) (by decide)).2
      (by with_unfolding_all decide)).2⟩

/-! ### Claim C6: command parsing -/

/-- C6: evaluation of `parse_command` at the claim's example inputs and at
the failing input `"$\\"` (the two-character text dollar backslash).  The
raw-string regex `r"^\$([a-z0-9\\.]+)"` contains a doubled backslash, so
its character class accepts a literal backslash and the text `"$\\"` parses
to a quote command with symbol `"\\"`, where the claimed class
`[a-z0-9.]` would make it parse to None. -/
theorem c6_parse_evaluation :
    parse_command "$bbca" = (some "quote", some "BBCA") ∧
    parse_command "$BBCA.JK" = (some "quote", some "BBCA") ∧
    parse_command "!IHSG now" = (some "ihsg", none) ∧
    parse_command "!help" = (some "help", none) ∧
    parse_command "hello" = (none, none) ∧
    parse_command "$\\" = (some "quote", some "\\") ∧
    symbolClassChar '\\' = true := by
  with_unfolding_all decide

/-! ### Claim C5: pivot invariants -/

/-- C5 counterexample: the bar high = 10, low = 9, close = 0 has
`high > low` and all three fields present, yet the computed
`r1 = 11/3` lies below `pivot = 19/3`, so `r1 > pivot > s1` fails — the
claimed ordering needs the close to lie between low and high. -/
theorem c5_counterexample :
    (10 : ℚ) > 9 ∧
    (pivot_levels 10 9 0 none).r1 < pivot_point 10 9 0 ∧
    ¬((pivot_levels 10 9 0 none).r1 > pivot_point 10 9 0 ∧
      pivot_point 10 9 0 > (pivot_levels 10 9 0 none).s1) := by
  refine ⟨by norm_num, ?_, ?_⟩
  · norm_num [pivot_levels, pivot_point]
  · rintro ⟨h1, -⟩
    norm_num [pivot_levels, pivot_point] at h1

/-- C5 (amended): the computation satisfies
`pivot = (high + low + close) / 3`, `r1 = 2·pivot − low` and
`s1 = 2·pivot − high` exactly, and for every bar with `high > low` whose
close lies in the bar's range (`low ≤ close ≤ high`, as for any real OHLC
bar) the levels satisfy `r1 > pivot > s1`. -/
theorem c5_amended (h l c : ℚ) (t : Option String) (hl : l < h)
    (hlc : l ≤ c) (hch : c ≤ h) :
    pivot_point h l c = (h + l + c) / 3 ∧
    (pivot_levels h l c t).r1 = 2 * pivot_point h l c - l ∧
    (pivot_levels h l c t).s1 = 2 * pivot_point h l c - h ∧
    (pivot_levels h l c t).r1 > pivot_point h l c ∧
    pivot_point h l c > (pivot_levels h l c t).s1 := by
  refine ⟨rfl, rfl, rfl, ?_, ?_⟩
  · show 2 * ((h + l + c) / 3) - l > (h + l + c) / 3
    linarith
  · show (h + l + c) / 3 > 2 * ((h + l + c) / 3) - h
    linarith

/-- Witness for `c5_amended` at the bar high = 101, low = 89, close = 100. -/
theorem c5_witness :
    (pivot_levels 101 89 100 none).r1 > pivot_point 101 89 100 ∧
    pivot_point 101 89 100 > (pivot_levels 101 89 100 none).s1 :=
  ⟨(c5_amended 101 89 100 none (by norm_num) (by norm_num)
      (by norm_num)).2.2.2.1,
   (c5_amended 101 89 100 none (by norm_num) (by norm_num)
      (by norm_num)).2.2.2.2⟩

/-! ### Claim C8: SR bar selection and error conditions -/

theorem selected_sr_bar_eq_none {bars : List SrBar} :
    selected_sr_bar bars = none ↔ bars = [] := by
  constructor
  · intro h
    by_contra hne
    have hlen : 0 < bars.length := List.length_pos.mpr hne
    have hidx : sr_bar_index bars.length < bars.length := by
      unfold sr_bar_index
      split
      · omega
      · omega
    rw [selected_sr_bar, List.get?_eq_none] at h
    omega
  · intro h
    subst h
    rfl

/-- C8: under a cache miss with a usable client and a successful fetch,
`fetch_sr_levels` runs the core computation; the selected bar is the
second-to-last when at least two bars are present and the last otherwise;
and the result is an error (no levels) exactly when the response is empty
(no-data message) or the selected bar has a missing field or equal high and
low (invalid-data message). -/
theorem c8_sr_selection (bars : List SrBar) :
    fetch_sr_levels none true (some bars) = fetch_sr_core bars ∧
    (2 ≤ bars.length → selected_sr_bar bars = bars.get? (bars.length - 2)) ∧
    (bars.length = 1 → selected_sr_bar bars = bars.get? (bars.length - 1)) ∧
    ((fetch_sr_core bars).1 = none ↔
      bars = [] ∨ ∃ bar, selected_sr_bar bars = some bar ∧
        sr_bar_invalid bar = true) ∧
    (bars = [] → fetch_sr_core bars = (none, some "Data SR tidak tersedia.")) ∧
    (∀ bar, selected_sr_bar bars = some bar → sr_bar_invalid bar = true →
      fetch_sr_core bars = (none, some "Data SR tidak valid.")) := by
  refine ⟨rfl, ?_, ?_, ?_, ?_, ?_⟩
  · intro h2
    rw [selected_sr_bar, sr_bar_index, if_pos (by omega)]
  · intro h1
    rw [selected_sr_bar, sr_bar_index, h1]
    norm_num
  · rcases hsel : selected_sr_bar bars with _ | bar
    · have hnil : bars = [] := selected_sr_bar_eq_none.mp hsel
      subst hnil
      simp [fetch_sr_core, selected_sr_bar, sr_bar_index]
    · have hne : bars ≠ [] := by
        intro hnil
        rw [hnil] at hsel
        exact absurd hsel (by simp [selected_sr_bar, sr_bar_index])
      rcases bar with ⟨bh, bl, bc, bt⟩
      rcases bh with _ | hv <;> rcases bl with _ | lv <;> rcases bc with _ | cv <;>
        simp [fetch_sr_core, hsel, sr_bar_invalid, hne]
      by_cases heq : hv = lv
      · simp [heq]
      · simp [heq]
  · intro hnil
    subst hnil
    rfl
  · intro bar hsel hinv
    rcases bar with ⟨bh, bl, bc, bt⟩
    rcases bh with _ | hv <;> rcases bl with _ | lv <;> rcases bc with _ | cv <;>
      simp [sr_bar_invalid] at hinv <;>
      simp [fetch_sr_core, hsel, sr_bar_invalid]
    exact hinv

/-- Witness for `c8_sr_selection`: a single bar with a missing high yields
the invalid-data error. -/
theorem c8_witness :
    fetch_sr_core [⟨none, some 1, some 2, none⟩] =
      (none, some "Data SR tidak valid.") :=
  (c8_sr_selection [⟨none, some 1, some 2, none⟩]).2.2.2.2.2
    ⟨none, some 1, some 2, none⟩ rfl rfl

/-! ### Claim C4: the change line of the formatted reply -/

/-- C4 counterexample: for close = 100 and open = 90 the change 10 is an
integral value, so `format_number` renders it without decimals: the reply
contains `Change: +10 (+11.11%)` and not the claimed
`Change: +10.00 (+11.11%)`. -/
theorem c4_counterexample :
    format_quote_text "BBCA" "IDX"
      ⟨some 90, some 101, some 89, some 100, some 1000, none, some 95⟩
      none none =
      "BBCA (IDX)\nClose: 100\nChange: +10 (+11.11%)\nO/H/L: 90 / 101 / 89\nVolume: 1,000" ∧
    containsSub (format_quote_text "BBCA" "IDX"
      ⟨some 90, some 101, some 89, some 100, some 1000, none, some 95⟩
      none none) "Close: 100" = true ∧
    containsSub (format_quote_text "BBCA" "IDX"
      ⟨some 90, some 101, some 89, some 100, some 1000, none, some 95⟩
      none none) "Change: +10.00 (+11.11%)" = false := by
  with_unfolding_all decide

/-- C4 (amended): with close and open both present and open non-zero, the
third line of the reply is `Change: ` followed by
`format_change (close − open) ((close − open) / open · 100)`; a
non-negative change is rendered with a leading `+` on both the absolute
change and the percentage (the percentage to 2 decimals, in parentheses);
and for close = 100, open = 90 the reply contains `Close: 100` and
`Change: +10 (+11.11%)` — the integral change renders without decimal
places. -/
theorem c4_amended (c o : ℚ) (d : QuoteData) (hc : d.close = some c)
    (ho : d.openPrice = some o) (ho0 : o ≠ 0) (s e : String)
    (disp : Option String) :
    ((quote_lines s e d disp).get? 2 =
      some ("Change: "
        ++ format_change (some (c - o)) (some ((c - o) / o * 100)))) ∧
    (0 ≤ c - o →
      format_change (some (c - o)) (some ((c - o) / o * 100)) =
        "+" ++ format_number (some (c - o)) ++ " (" ++ "+"
          ++ fmt2 ((c - o) / o * 100) ++ "%)") ∧
    containsSub (format_quote_text "BBCA" "IDX"
      ⟨some 90, some 101, some 89, some 100, some 1000, none, some 95⟩
      none none) "Close: 100" = true ∧
    containsSub (format_quote_text "BBCA" "IDX"
      ⟨some 90, some 101, some 89, some 100, some 1000, none, some 95⟩
      none none) "Change: +10 (+11.11%)" = true := by
  refine ⟨?_, ?_, by with_unfolding_all decide, by with_unfolding_all decide⟩
  · simp [quote_lines, hc, ho, ho0]
  · intro hge
    simp [format_change, hge]

/-- Witness for `c4_amended` at the concrete scenario data. -/
theorem c4_witness :
    (quote_lines "BBCA" "IDX"
      ⟨some 90, some 101, some 89, some 100, some 1000, none, some 95⟩
      none).get? 2 =
      some ("Change: " ++ format_change (some ((100 : ℚ) - 90))
        (some (((100 : ℚ) - 90) / 90 * 100))) :=
  (c4_amended 100 90
    ⟨some 90, some 101, some 89, some 100, some 1000, none, some 95⟩
    rfl rfl (by norm_num) "BBCA" "IDX" none).1

/-! ### Claim C9: format_number on all float inputs -/

/-- C9 counterexample: `float('inf')` is numeric and not NaN, so
`safe_float` passes it through unchanged, and `format_number` then
evaluates `int(value)`, which raises `OverflowError` on an infinite value —
so `format_number` does raise on a float input that survives the
NaN/non-numeric filtering. -/
theorem c9_counterexample :
    safe_float (some PyFloat.posInf) = some PyFloat.posInf ∧
    pyIsNan PyFloat.posInf = false ∧
    format_number_full (safe_float (some PyFloat.posInf)) =
      Except.error "OverflowError" :=
  ⟨rfl, rfl, rfl⟩

/-- C9 (amended): for every finite numeric input (non-numeric/NaN inputs
mapped to absent), `format_number` never raises; absent input renders the
placeholder `"-"`; an integral value renders with no decimal point and,
after removing the thousands separators, is exactly the signed decimal
rendering of the integer; a non-integral value renders as an integer part
(thousands-separated, no decimal point inside) followed by `.` and exactly
2 decimal digits.  An infinite input, by contrast, raises (see the
counterexample). -/
theorem c9_amended :
    format_number none = "-" ∧
    (∀ v : Option PyFloat, safe_float v = none →
      format_number_full (safe_float v) = Except.ok "-") ∧
    (∀ q : ℚ, format_number_full (some (PyFloat.finite q)) =
      Except.ok (format_number (some q))) ∧
    (∀ q : ℚ, q.den = 1 →
      ('.' ∉ (format_number (some q)).data) ∧
      ((format_number (some q)).data.filter (fun ch => ch != ',') =
        (if q.num < 0 then ['-'] else []) ++ natDigits q.num.natAbs)) ∧
    (∀ q : ℚ, q.den ≠ 1 → ∃ a b : List Char,
      (format_number (some q)).data = a ++ '.' :: b ∧ b.length = 2 ∧
      (∀ ch ∈ b, ch.isDigit = true) ∧ '.' ∉ a ∧
      a.filter (fun ch => ch != ',') =
        (if q < 0 then ['-'] else []) ++ natDigits (centsOf q / 100)) := by
  refine ⟨rfl, ?_, ?_, ?_, ?_⟩
  · intro v hv
    rw [hv]
    rfl
  · intro q
    rfl
  · intro q hden
    have hdata : (format_number (some q)).data =
        (if q.num < 0 then ['-'] else []) ++ withCommas q.num.natAbs := by
      simp [format_number, hden]
    constructor
    · rw [hdata]
      intro hmem
      rcases List.mem_append.mp hmem with h1 | h2
      · split at h1
        · exact absurd (List.mem_singleton.mp h1) (by decide)
        · exact absurd h1 (List.not_mem_nil '.')
      · rcases mem_withCommas h2 with hd | hc
        · exact isDigit_ne_dot hd rfl
        · exact absurd hc (by decide)
    · rw [hdata, List.filter_append, withCommas_filter]
      congr 1
      split
      · decide
      · decide
  · intro q hden
    refine ⟨(if q < 0 then ['-'] else []) ++ withCommas (centsOf q / 100),
      twoDigits (centsOf q % 100), ?_, rfl, ?_, ?_, ?_⟩
    · simp [format_number, hden, List.append_assoc]
    · intro ch hch
      rcases List.mem_cons.mp hch with h1 | h2
      · exact h1 ▸ digitChar_isDigit (Nat.mod_lt _ (by norm_num))
      · rw [List.mem_singleton] at h2
        exact h2 ▸ digitChar_isDigit (Nat.mod_lt _ (by norm_num))
    · intro hmem
      rcases List.mem_append.mp hmem with h1 | h2
      · split at h1
        · exact absurd (List.mem_singleton.mp h1) (by decide)
        · exact absurd h1 (List.not_mem_nil '.')
      · rcases mem_withCommas h2 with hd | hc
        · exact isDigit_ne_dot hd rfl
        · exact absurd hc (by decide)
    · rw [List.filter_append, withCommas_filter]
      congr 1
      split
      · decide
      · decide

/-- Witness for `c9_amended`: the integral value 1234 renders with no
decimal point and strips back to its plain digits, and a finite value
never raises. -/
theorem c9_witness :
    ('.' ∉ (format_number (some (1234 : ℚ))).data) ∧
    format_number_full (some (PyFloat.finite (5 / 2))) =
      Except.ok (format_number (some (5 / 2))) :=
  ⟨(c9_amended.2.2.2.1 1234 (by with_unfolding_all decide)).1,
   c9_amended.2.2.1 (5 / 2)⟩
